import Mathlib

/-!
Shallow embedding of the ticket admission engine of the emision-tickets
repository (Django): `sales/serializers.py` (`TicketSerializer.validate`,
`TicketSerializer.create`), `sales/models.py` (`Ticket`, `TicketItem`),
`catalog/models.py` (`DrawSchedule`, `NumberLimit`) and `sales/views.py`
(`TicketViewSet.perform_create`).

Conventions of the embedding:
* Zone, DrawType and user primary keys are `Nat`.
* A time of day (`cutoff_time`, the result of `timezone.localtime().time()`)
  is a `Nat` counting seconds since local midnight; a local calendar date
  (`timezone.localdate()`, `created_at__date`) is a `Nat` day index.
* The `pieces` entry of a request item is the parsed integer of the JSON
  payload, `Option Int` because the key may be absent; a stored `pieces`
  value is a `Nat` (the model field is a `PositiveIntegerField`).
* Fallible steps return sum types; the database uniqueness constraint
  `unique_together ("ticket", "number")` is modelled inside the creation
  sequence, which is not wrapped in any transaction in the source
  (`ATOMIC_REQUESTS` is unset and `create` opens no `transaction.atomic`).
-/

namespace EmisionTickets

/-- Embedding of `catalog.models.DrawSchedule`: per (zone, draw_type) cutoff
time and active flag, rows unique per pair. -/
structure DrawSchedule where
  zone : Nat
  draw_type : Nat
  cutoff_time : Nat
  is_active : Bool
deriving DecidableEq, Repr

/-- Embedding of `catalog.models.NumberLimit`: per (zone, draw_type, number)
daily cap on pieces, rows unique per triple. -/
structure NumberLimit where
  zone : Nat
  draw_type : Nat
  number : String
  max_pieces : Nat
deriving DecidableEq, Repr

/-- Catalog rows read by `TicketSerializer.validate`. -/
structure Catalog where
  schedules : List DrawSchedule
  limits : List NumberLimit
deriving DecidableEq, Repr

/-- Embedding of `sales.models.Ticket`. The field `created_date` is the local
calendar date of the `auto_now_add` timestamp, the only projection of
`created_at` the engine reads (via `ticket__created_at__date`). -/
structure Ticket where
  id : Nat
  zone : Nat
  draw_type : Nat
  user : Nat
  created_date : Nat
  total_pieces : Nat
deriving DecidableEq, Repr

/-- Embedding of `sales.models.TicketItem`. -/
structure TicketItem where
  ticket : Nat
  number : String
  pieces : Nat
deriving DecidableEq, Repr

/-- The ticket ledger: the persisted rows plus the next fresh `Ticket`
primary key. -/
structure Store where
  tickets : List Ticket
  items : List TicketItem
  next_id : Nat
deriving DecidableEq, Repr

/-- One entry of the `items` array of the request payload; `pieces?` is `none`
when the key is absent (`validate` then reads `item.get('pieces', 0)` as 0,
while creation falls back to the model default 1). -/
structure ItemPayload where
  number : String
  pieces? : Option Int
deriving DecidableEq, Repr

/-- Request payload of `POST /api/sales/tickets/`. The caller may also supply
`user`, `created_at` and `total_pieces` entries, which are declared in
`TicketSerializer.Meta.read_only_fields`. -/
structure Request where
  zone : Nat
  draw_type : Nat
  items : List ItemPayload
  user_payload : Option Nat
  created_at_payload : Option Nat
  total_pieces_payload : Option Nat
deriving DecidableEq, Repr

/-- Field list of `TicketSerializer.Meta.fields`. -/
def ticketFields : List String :=
  ["id", "created_at", "zone", "draw_type", "user", "total_pieces", "items"]

/-- Field list of `TicketSerializer.Meta.read_only_fields`. -/
def ticketReadOnlyFields : List String :=
  ["id", "created_at", "user", "total_pieces"]

/-- Writable fields of the serializer: `fields` minus `read_only_fields`.
DRF drops read-only fields from `validated_data`. -/
def writableFields : List String :=
  ticketFields.filter (fun f => !(ticketReadOnlyFields.contains f))

/-- Data surviving deserialization: exactly the writable fields
(`zone`, `draw_type`, `items`). -/
structure ValidatedData where
  zone : Nat
  draw_type : Nat
  items : List ItemPayload
deriving DecidableEq, Repr

/-- Projection of the request payload onto the writable fields; the read-only
payload entries never reach `validated_data`. -/
def validatedData (req : Request) : ValidatedData :=
  ⟨req.zone, req.draw_type, req.items⟩

/-- DRF field validation of one item, as generated by `TicketItemSerializer`
from the model fields: `number` is a `CharField(max_length=2)` (blank
refused), `pieces` an integer constrained by the `PositiveIntegerField`
range validators to `0 ≤ pieces ≤ 2147483647` and not required (the model
default is 1). -/
def fieldValidItem (item : ItemPayload) : Bool :=
  !(item.number.isEmpty) && item.number.length ≤ 2 &&
    (match item.pieces? with
     | some p => decide (0 ≤ p) && decide (p ≤ 2147483647)
     | none => true)

/-- DRF field validation of the `items` list (`many=True`; an empty list is
accepted because `allow_empty` defaults to true). -/
def fieldValidItems (items : List ItemPayload) : Bool :=
  items.all fieldValidItem

/-- Rejection outcomes of the admission path. The last four are raised by
`TicketSerializer.validate`; `fieldInvalid` is the DRF field-validation
rejection that precedes `validate`. All map to an HTTP 400 response. -/
inductive AdmissionError where
  | fieldInvalid
  | noSchedule
  | pastCutoff
  | invalidNumber (number : String)
  | limitExceeded (number : String) (sold : Nat) (pieces : Int) (max_allowed : Nat)
deriving DecidableEq, Repr

/-- Lookup `DrawSchedule.objects.get(zone=…, draw_type=…, is_active=True)`;
rows are unique per (zone, draw_type), so the first match is the only one. -/
def findActiveSchedule (cat : Catalog) (zone draw_type : Nat) : Option DrawSchedule :=
  cat.schedules.find? (fun s => s.zone == zone && s.draw_type == draw_type && s.is_active)

/-- Lookup of `number` in the dict built by
`{l.number: l.max_pieces for l in NumberLimit.objects.filter(zone=…, draw_type=…)}`;
rows are unique per (zone, draw_type, number). -/
def limitFor (cat : Catalog) (zone draw_type : Nat) (number : String) : Option Nat :=
  (cat.limits.find?
    (fun l => l.zone == zone && l.draw_type == draw_type && l.number == number)).map
    (fun l => l.max_pieces)

/-- Negation of the guard
`not number or len(number) != 2 or not number.isdigit()`: the number is
non-empty, exactly two characters, all decimal digits. -/
def validNumber (number : String) : Bool :=
  !(number.isEmpty) && number.length == 2 && number.toList.all (fun c => c.isDigit)

/-- Whether the ticket owning an item matches the filters of the aggregate
(`ticket__zone`, `ticket__draw_type`, `ticket__created_at__date=today`). -/
def ticketMatches (tickets : List Ticket) (zone draw_type today tid : Nat) : Bool :=
  match tickets.find? (fun t => t.id == tid) with
  | some t => t.zone == zone && t.draw_type == draw_type && t.created_date == today
  | none => false

/-- The aggregate read by `validate`:
`TicketItem.objects.filter(ticket__zone=…, ticket__draw_type=…,
ticket__created_at__date=today, number=…).aggregate(total=Sum('pieces'))`,
with a missing total collapsed to 0 by `or 0`. -/
def soldToday (s : Store) (zone draw_type : Nat) (number : String) (today : Nat) : Nat :=
  ((s.items.filter
      (fun it => it.number == number && ticketMatches s.tickets zone draw_type today it.ticket)).map
    (fun it => it.pieces)).sum

/-- Per-item loop of `TicketSerializer.validate`: number format check, then
the accumulated-limit check when a `NumberLimit` row exists; the first failure
raises and aborts the loop. -/
def checkItems (cat : Catalog) (s : Store) (zone draw_type today : Nat) :
    List ItemPayload → Option AdmissionError
  | [] => none
  | item :: rest =>
    if !(validNumber item.number) then
      some (.invalidNumber item.number)
    else
      match limitFor cat zone draw_type item.number with
      | some max_allowed =>
        if (soldToday s zone draw_type item.number today : Int) + item.pieces?.getD 0
            > (max_allowed : Int) then
          some (.limitExceeded item.number (soldToday s zone draw_type item.number today)
            (item.pieces?.getD 0) max_allowed)
        else
          checkItems cat s zone draw_type today rest
      | none => checkItems cat s zone draw_type today rest

/-- Embedding of `TicketSerializer.validate`: active-schedule lookup, cutoff
comparison `now >= cutoff_time`, then the per-item loop. `now` is the local
time of day of the submission instant, `today` its local calendar date. -/
def validateTicket (cat : Catalog) (s : Store) (now today zone draw_type : Nat)
    (items_data : List ItemPayload) : Option AdmissionError :=
  match findActiveSchedule cat zone draw_type with
  | none => some .noSchedule
  | some schedule =>
    if now ≥ schedule.cutoff_time then some .pastCutoff
    else checkItems cat s zone draw_type today items_data

/-- Effective stored `pieces` of a created item: the validated payload value,
or the model default 1 when the key is absent. Field validation guarantees the
value is non-negative, so `toNat` loses nothing on the admission path. -/
def storedPieces (item : ItemPayload) : Nat :=
  (item.pieces?.getD 1).toNat

/-- Outcome of the creation sequence; `integrityError` is the database
uniqueness violation of `unique_together ("ticket", "number")` aborting the
request with the rows created so far still persisted, since nothing wraps
`create` in a transaction. -/
inductive CreateResult where
  | ok (s : Store) (ticket_id : Nat)
  | integrityError (s : Store)
deriving DecidableEq, Repr

/-- Update of `ticket.save(update_fields=['total_pieces'])`: store the total
on the ticket row with the given id. -/
def setTotal (tickets : List Ticket) (tid total : Nat) : List Ticket :=
  tickets.map (fun t => if t.id == tid then { t with total_pieces := total } else t)

/-- Item loop of `TicketSerializer.create`: insert each `TicketItem` in order,
accumulating the running total; inserting a (ticket, number) pair that already
exists raises, leaving the partial state behind. After the loop the
accumulated total is stored on the ticket. -/
def insertItems (tid : Nat) : Store → Nat → List ItemPayload → CreateResult
  | s, total, [] => .ok { s with tickets := setTotal s.tickets tid total } tid
  | s, total, item :: rest =>
    if s.items.any (fun it => it.ticket == tid && it.number == item.number) then
      .integrityError s
    else
      insertItems tid
        { s with items := s.items ++ [⟨tid, item.number, storedPieces item⟩] }
        (total + storedPieces item) rest

/-- The fresh `Ticket` row made by `Ticket.objects.create(**validated_data)`:
`auto_now_add` timestamp, `total_pieces` at its default 0. -/
def newTicket (s : Store) (vd : ValidatedData) (user today : Nat) : Ticket :=
  { id := s.next_id, zone := vd.zone, draw_type := vd.draw_type,
    user := user, created_date := today, total_pieces := 0 }

/-- Embedding of `TicketSerializer.create`: create the `Ticket` row, insert
the items one by one, then store the accumulated total. -/
def createTicket (s : Store) (vd : ValidatedData) (user today : Nat) : CreateResult :=
  insertItems s.next_id
    { s with tickets := s.tickets ++ [newTicket s vd user today], next_id := s.next_id + 1 }
    0 vd.items

/-- Observable outcome of one `POST /api/sales/tickets/`. `rejected` carries
the unchanged store; `storageError` carries the partial store left behind by
an integrity error escaping `create`. -/
inductive SubmitResult where
  | created (s : Store) (ticket_id : Nat)
  | rejected (s : Store) (e : AdmissionError)
  | storageError (s : Store)
deriving DecidableEq, Repr

/-- The whole admission path of one request: DRF field validation,
`TicketSerializer.validate` (which reads the raw `initial_data` items), then
`perform_create`, which injects `user=self.request.user` and runs
`TicketSerializer.create`. -/
def submitTicket (cat : Catalog) (s : Store) (req : Request)
    (requester now today : Nat) : SubmitResult :=
  if !(fieldValidItems req.items) then .rejected s .fieldInvalid
  else
    match validateTicket cat s now today req.zone req.draw_type req.items with
    | some e => .rejected s e
    | none =>
      match createTicket s (validatedData req) requester today with
      | .ok s2 tid => .created s2 tid
      | .integrityError s2 => .storageError s2

/-- Store component of a creation outcome. -/
def storeAfter : CreateResult → Store
  | .ok s _ => s
  | .integrityError s => s

/-- Whether one request passes every check when evaluated against store `s`:
field validation plus `TicketSerializer.validate`. This is the pure read phase
of a request worker. -/
def admits (cat : Catalog) (s : Store) (req : Request) (now today : Nat) : Bool :=
  fieldValidItems req.items &&
    (validateTicket cat s now today req.zone req.draw_type req.items).isNone

/-- Interleaved execution of two concurrent request workers, each running the
read phase (`validate`) and then the write phase (`create`), scheduled as
read₁, read₂, write₁, write₂. The source takes no lock and opens no
transaction between the limit read and the commit, so both reads can observe
the initial store. -/
def racyPairRun (cat : Catalog) (s : Store) (r1 r2 : Request)
    (u1 u2 now today : Nat) : Store :=
  let ok1 := admits cat s r1 now today
  let ok2 := admits cat s r2 now today
  let s1 := if ok1 then storeAfter (createTicket s (validatedData r1) u1 today) else s
  if ok2 then storeAfter (createTicket s1 (validatedData r2) u2 today) else s1

/-- Sum of the stored `pieces` of all `TicketItem` rows of ticket `tid`. -/
def itemsSum (s : Store) (tid : Nat) : Nat :=
  ((s.items.filter (fun it => it.ticket == tid)).map (fun it => it.pieces)).sum

/-- User column of the ticket row with id `tid`, when present. -/
def userOf (s : Store) (tid : Nat) : Option Nat :=
  (s.tickets.find? (fun t => t.id == tid)).map (fun t => t.user)

/-- Total column of the ticket row with id `tid`, when present. -/
def totalOf (s : Store) (tid : Nat) : Option Nat :=
  (s.tickets.find? (fun t => t.id == tid)).map (fun t => t.total_pieces)

/-! Concrete fixtures used by the closed theorems below. -/

/-- Empty ledger. -/
def store0 : Store := ⟨[], [], 0⟩

/-- Catalog with an active schedule for (zone 0, draw 0) whose cutoff is
23:59:00 local, and a `NumberLimit` of 5 pieces on number 12. -/
def activeCat : Catalog := ⟨[⟨0, 0, 86340, true⟩], [⟨0, 0, "12", 5⟩]⟩

/-- Catalog whose only schedule row for (zone 0, draw 0) is marked inactive. -/
def inactiveCat : Catalog := ⟨[⟨0, 0, 86340, false⟩], []⟩

/-- Request for three pieces of number 12. -/
def oneItemReq : Request := ⟨0, 0, [⟨"12", some 3⟩], none, none, none⟩

/-- Request repeating number 12 in two line items. -/
def dupReq : Request := ⟨0, 0, [⟨"12", some 1⟩, ⟨"12", some 2⟩], none, none, none⟩

/-- Request repeating number 34 in two line items. -/
def dupReq2 : Request := ⟨0, 0, [⟨"34", some 2⟩, ⟨"34", some 3⟩], none, none, none⟩

/-- Request for zero pieces of number 12. -/
def zeroReq : Request := ⟨0, 0, [⟨"12", some 0⟩], none, none, none⟩

/-- Request with an empty items list. -/
def emptyItemsReq : Request := ⟨0, 0, [], none, none, none⟩

/-- Ledger state after the racy double submission of `oneItemReq`. -/
def racyFinalStore : Store :=
  ⟨[⟨0, 0, 0, 1, 0, 3⟩, ⟨1, 0, 0, 2, 0, 3⟩], [⟨0, "12", 3⟩, ⟨1, "12", 3⟩], 2⟩

/-- C1. The step-5 limit read and step-6 commit are not atomic: two concurrent
submissions of 3 pieces of number 12, with `max_pieces = 5` configured, both
pass validation against the initial store under the interleaving read₁ read₂
write₁ write₂, both commit, and the committed pieces for
(zone 0, draw 0, number 12, day 0) total 6, exceeding the cap of 5. -/
theorem c1_race_exceeds_cap :
    admits activeCat store0 oneItemReq 0 0 = true ∧
    racyPairRun activeCat store0 oneItemReq oneItemReq 1 2 0 0 = racyFinalStore ∧
    soldToday racyFinalStore 0 0 "12" 0 = 6 ∧
    limitFor activeCat 0 0 "12" = some 5 :=
  ⟨rfl, rfl, rfl, rfl⟩

/-- C3 counterexample. A submission with a duplicated number passes
`validate`, then fails mid-create on the (ticket, number) uniqueness
constraint: starting from an empty ledger, the call ends in a storage error
with one `Ticket` row and one `TicketItem` row already persisted, so the call
is not all-or-nothing. -/
theorem c3_not_atomic_counterexample :
    submitTicket activeCat store0 dupReq 1 0 0 =
      .storageError ⟨[⟨0, 0, 0, 1, 0, 0⟩], [⟨0, "12", 1⟩], 1⟩ ∧
    store0.tickets = [] ∧ store0.items = [] :=
  ⟨rfl, rfl, rfl⟩

/-- C4. An inactive schedule row is a miss for the
`is_active=True` lookup, so the submission is rejected with the no-schedule
error instead of proceeding to the item-level checks. The repository test
`test_cutoff_time_inactive_schedule` expects acceptance. -/
theorem c4_inactive_schedule_rejects :
    findActiveSchedule inactiveCat 0 0 = none ∧
    submitTicket inactiveCat store0 oneItemReq 1 0 0 = .rejected store0 .noSchedule :=
  ⟨rfl, rfl⟩

/-- C5. `validate` performs no duplicate-number check: a submission repeating
number 34 passes validation, and the duplicate instead surfaces during
creation as a storage-level uniqueness failure that leaves a partial ticket,
not as a typed validation rejection. The repository test
`test_ticket_with_duplicate_numbers` expects a 400 validation outcome. -/
theorem c5_duplicate_not_validated :
    validateTicket activeCat store0 0 0 0 0 dupReq2.items = none ∧
    submitTicket activeCat store0 dupReq2 1 0 0 =
      .storageError ⟨[⟨0, 0, 0, 1, 0, 0⟩], [⟨0, "34", 2⟩], 1⟩ :=
  ⟨rfl, rfl⟩

/-- C6. A zero `pieces` value passes DRF field validation (the
`PositiveIntegerField` bound is `min_value=0`) and `validate` has no
positivity check, so the submission is accepted and a `TicketItem` row with
`pieces = 0` is persisted. The repository test `test_ticket_with_zero_pieces`
expects rejection. -/
theorem c6_zero_pieces_accepted :
    fieldValidItems zeroReq.items = true ∧
    submitTicket activeCat store0 zeroReq 1 0 0 =
      .created ⟨[⟨0, 0, 0, 1, 0, 0⟩], [⟨0, "12", 0⟩], 1⟩ 0 :=
  ⟨rfl, rfl⟩

/-- C7. An empty items list passes the list field (`allow_empty` defaults to
true) and the validation loop vacuously, so a ticket with no items and
`total_pieces = 0` is created. The repository test `test_ticket_without_items`
expects rejection. -/
theorem c7_empty_items_accepted :
    submitTicket activeCat store0 emptyItemsReq 1 0 0 =
      .created ⟨[⟨0, 0, 0, 1, 0, 0⟩], [], 1⟩ 0 :=
  rfl

/-! Characterization of the creation sequence on success. -/

/-- Successful runs of the item-insertion loop append exactly one row per
payload item, leave the old rows and the fresh-id counter alone, and store the
accumulated total on ticket `tid`. -/
theorem insertItems_ok_eq (tid : Nat) (items : List ItemPayload) :
    ∀ (s : Store) (total : Nat) (s' : Store) (tid' : Nat),
      insertItems tid s total items = .ok s' tid' →
      tid' = tid ∧
      s' = { tickets := setTotal s.tickets tid (total + (items.map storedPieces).sum),
             items := s.items ++ items.map (fun it => ⟨tid, it.number, storedPieces it⟩),
             next_id := s.next_id } := by
  induction items with
  | nil =>
    intro s total s' tid' h
    simp only [insertItems] at h
    injection h with h1 h2
    subst h1; subst h2
    refine ⟨rfl, ?_⟩
    simp
  | cons item rest ih =>
    intro s total s' tid' h
    simp only [insertItems] at h
    split at h
    · exact CreateResult.noConfusion h
    · have hrec := ih _ _ s' tid' h
      refine ⟨hrec.1, ?_⟩
      rw [hrec.2]
      simp [Nat.add_assoc]

/-- Successful runs of `createTicket` append the fresh ticket row carrying the
stored total, append one item row per payload item, and bump the fresh id. -/
theorem createTicket_ok_eq (s : Store) (vd : ValidatedData) (user today : Nat)
    (s' : Store) (tid : Nat) (h : createTicket s vd user today = .ok s' tid) :
    tid = s.next_id ∧
    s' = { tickets := setTotal (s.tickets ++ [newTicket s vd user today]) s.next_id
             ((vd.items.map storedPieces).sum),
           items := s.items ++ vd.items.map (fun it => ⟨s.next_id, it.number, storedPieces it⟩),
           next_id := s.next_id + 1 } := by
  unfold createTicket at h
  have hrec := insertItems_ok_eq s.next_id vd.items _ 0 s' tid h
  refine ⟨hrec.1, ?_⟩
  rw [hrec.2]
  simp

/-- A submission whose outcome is `created` took the full path: field
validation passed, `validate` raised nothing, and `create` returned the same
store and ticket id. -/
theorem submitTicket_created_eq (cat : Catalog) (s : Store) (req : Request)
    (requester now today : Nat) (s' : Store) (tid : Nat)
    (h : submitTicket cat s req requester now today = .created s' tid) :
    createTicket s (validatedData req) requester today = .ok s' tid := by
  rw [submitTicket] at h
  cases hfv : fieldValidItems req.items with
  | false => rw [hfv] at h; simp at h
  | true =>
    rw [hfv] at h
    simp only [Bool.not_true, Bool.false_eq_true, if_false] at h
    cases hv : validateTicket cat s now today req.zone req.draw_type req.items with
    | some e => rw [hv] at h; exact SubmitResult.noConfusion h
    | none =>
      rw [hv] at h
      cases hc : createTicket s (validatedData req) requester today with
      | ok s2 tid2 =>
        rw [hc] at h
        injection h with h1 h2
        subst h1; subst h2
        rfl
      | integrityError s2 => rw [hc] at h; exact SubmitResult.noConfusion h

/-! Cutoff behaviour. -/

/-- The per-item loop never produces the cutoff error: its only outcomes are
acceptance, an invalid-number error, or an accumulated-limit error. -/
theorem checkItems_ne_pastCutoff (cat : Catalog) (s : Store) (zone draw_type today : Nat) :
    ∀ items : List ItemPayload,
      checkItems cat s zone draw_type today items ≠ some .pastCutoff := by
  intro items
  induction items with
  | nil => simp [checkItems]
  | cons item rest ih =>
    simp only [checkItems]
    split
    · simp
    · split
      · split
        · simp
        · exact ih
      · exact ih

/-- Evaluation of `validate` once an active schedule row is found. -/
theorem validateTicket_with_schedule (cat : Catalog) (s : Store)
    (now today zone draw_type : Nat) (items : List ItemPayload) (sc : DrawSchedule)
    (hsched : findActiveSchedule cat zone draw_type = some sc) :
    validateTicket cat s now today zone draw_type items =
      if now ≥ sc.cutoff_time then some AdmissionError.pastCutoff
      else checkItems cat s zone draw_type today items := by
  unfold validateTicket
  rw [hsched]

/-- C8. Under an active schedule, a submission is rejected with the cutoff
error exactly when the local time of day is at or past the configured cutoff
(the comparison is non-strict, so the cutoff instant itself is rejected);
strictly before the cutoff, the cutoff check passes and validation proceeds to
the per-item checks. -/
theorem c8_cutoff_boundary (cat : Catalog) (s : Store) (now today zone draw_type : Nat)
    (items : List ItemPayload) (sc : DrawSchedule)
    (hsched : findActiveSchedule cat zone draw_type = some sc) :
    (validateTicket cat s now today zone draw_type items = some .pastCutoff ↔
      sc.cutoff_time ≤ now) ∧
    (now < sc.cutoff_time →
      validateTicket cat s now today zone draw_type items =
        checkItems cat s zone draw_type today items) := by
  rw [validateTicket_with_schedule cat s now today zone draw_type items sc hsched]
  constructor
  · by_cases hc : sc.cutoff_time ≤ now
    · rw [if_pos hc]; simp [hc]
    · rw [if_neg hc]
      simp only [hc, iff_false]
      exact checkItems_ne_pastCutoff cat s zone draw_type today items
  · intro hlt
    rw [if_neg (by omega)]

/-- Schedule fixture for the cutoff witness: active, cutoff at 01:00:00. -/
def c8Sched : DrawSchedule := ⟨0, 0, 3600, true⟩

/-- Catalog fixture for the cutoff witness. -/
def c8Cat : Catalog := ⟨[c8Sched], []⟩

/-- Witness for C8 at the cutoff instant itself. -/
theorem c8_cutoff_witness :
    (validateTicket c8Cat store0 3600 0 0 0 [⟨"12", some 1⟩] = some .pastCutoff ↔
      c8Sched.cutoff_time ≤ 3600) ∧
    (3600 < c8Sched.cutoff_time →
      validateTicket c8Cat store0 3600 0 0 0 [⟨"12", some 1⟩] =
        checkItems c8Cat store0 0 0 0 [⟨"12", some 1⟩]) :=
  c8_cutoff_boundary c8Cat store0 3600 0 0 0 [⟨"12", some 1⟩] c8Sched rfl

/-! Accumulated-limit behaviour. -/

/-- Acceptance condition of the per-item loop when every number is
well-formed: the loop raises nothing exactly when no item with a configured
limit pushes the accumulated daily total past it. -/
theorem checkItems_none_iff (cat : Catalog) (s : Store) (zone draw_type today : Nat) :
    ∀ items : List ItemPayload,
      (∀ it ∈ items, validNumber it.number = true) →
      (checkItems cat s zone draw_type today items = none ↔
        ∀ it ∈ items, ∀ m, limitFor cat zone draw_type it.number = some m →
          (soldToday s zone draw_type it.number today : Int) + it.pieces?.getD 0 ≤ (m : Int)) := by
  intro items
  induction items with
  | nil => intro _; simp [checkItems]
  | cons item rest ih =>
    intro hfmt
    have hv : validNumber item.number = true := hfmt item (List.mem_cons_self item rest)
    have hrest := ih (fun it hit => hfmt it (List.mem_cons_of_mem item hit))
    simp only [checkItems]
    split
    · rename_i hcond
      rw [hv] at hcond
      simp at hcond
    · split
      · rename_i max_allowed hlim
        split
        · rename_i hgt
          constructor
          · intro habs; exact Option.noConfusion habs
          · intro hall
            have hle := hall item (List.mem_cons_self item rest) max_allowed hlim
            omega
        · rename_i hle
          rw [hrest]
          constructor
          · intro hall it hit m' hlim'
            rcases List.mem_cons.mp hit with heq | hmem
            · subst heq
              rw [hlim] at hlim'
              injection hlim' with hm
              subst hm
              omega
            · exact hall it hmem m' hlim'
          · intro hall it hit m' hlim'
            exact hall it (List.mem_cons_of_mem item hit) m' hlim'
      · rename_i hlim
        rw [hrest]
        constructor
        · intro hall it hit m' hlim'
          rcases List.mem_cons.mp hit with heq | hmem
          · subst heq
            rw [hlim] at hlim'
            exact Option.noConfusion hlim'
          · exact hall it hmem m' hlim'
        · intro hall it hit m' hlim'
          exact hall it (List.mem_cons_of_mem item hit) m' hlim'

/-- When every number is well-formed, the per-item loop either accepts or
raises an accumulated-limit error. -/
theorem checkItems_shape (cat : Catalog) (s : Store) (zone draw_type today : Nat) :
    ∀ items : List ItemPayload,
      (∀ it ∈ items, validNumber it.number = true) →
      checkItems cat s zone draw_type today items = none ∨
      ∃ n sold p m, checkItems cat s zone draw_type today items =
        some (.limitExceeded n sold p m) := by
  intro items
  induction items with
  | nil => intro _; left; rfl
  | cons item rest ih =>
    intro hfmt
    have hv : validNumber item.number = true := hfmt item (List.mem_cons_self item rest)
    have hrest := ih (fun it hit => hfmt it (List.mem_cons_of_mem item hit))
    simp only [checkItems]
    split
    · rename_i hcond
      rw [hv] at hcond
      simp at hcond
    · split
      · split
        · right; exact ⟨_, _, _, _, rfl⟩
        · exact hrest
      · exact hrest

/-- C2. For a submission that passes the schedule, cutoff and number-format
checks, `validate` raises an accumulated-limit rejection exactly when some
item has a `NumberLimit` row for its number whose cap is exceeded by the
pieces already sold today for that (zone, draw_type, number) plus the
requested pieces; numbers with no `NumberLimit` row never trigger this
rejection. -/
theorem c2_accumulated_limit_iff (cat : Catalog) (s : Store)
    (now today zone draw_type : Nat) (items : List ItemPayload) (sc : DrawSchedule)
    (hsched : findActiveSchedule cat zone draw_type = some sc)
    (hnow : now < sc.cutoff_time)
    (hfmt : ∀ it ∈ items, validNumber it.number = true) :
    (∃ n sold p m, validateTicket cat s now today zone draw_type items =
        some (.limitExceeded n sold p m)) ↔
    ∃ it ∈ items, ∃ m, limitFor cat zone draw_type it.number = some m ∧
      (m : Int) < (soldToday s zone draw_type it.number today : Int) + it.pieces?.getD 0 := by
  have hval : validateTicket cat s now today zone draw_type items =
      checkItems cat s zone draw_type today items := by
    rw [validateTicket_with_schedule cat s now today zone draw_type items sc hsched,
      if_neg (by omega)]
  simp only [hval]
  constructor
  · rintro ⟨n, sold, p, m, h⟩
    by_contra hnone
    push_neg at hnone
    have hnil : checkItems cat s zone draw_type today items = none := by
      rw [checkItems_none_iff cat s zone draw_type today items hfmt]
      intro it hit m' hlim'
      have := hnone it hit m' hlim'
      omega
    rw [hnil] at h
    exact Option.noConfusion h
  · rintro ⟨it, hit, m, hlim, hlt⟩
    rcases checkItems_shape cat s zone draw_type today items hfmt with hnil | hsome
    · exfalso
      have := (checkItems_none_iff cat s zone draw_type today items hfmt).mp hnil it hit m hlim
      omega
    · exact hsome

/-- Ledger fixture for the limit witness: three pieces of number 12 already
sold today in (zone 0, draw 0). -/
def c2Store : Store := ⟨[⟨0, 0, 0, 7, 0, 3⟩], [⟨0, "12", 3⟩], 1⟩

/-- Items fixture for the limit witness: three further pieces of number 12. -/
def c2Items : List ItemPayload := [⟨"12", some 3⟩]

/-- Witness for C2 on a concrete store where 3 pieces are already sold and 3
more are requested against a cap of 5. -/
theorem c2_limit_witness :
    (∃ n sold p m, validateTicket activeCat c2Store 0 0 0 0 c2Items =
        some (.limitExceeded n sold p m)) ↔
    ∃ it ∈ c2Items, ∃ m, limitFor activeCat 0 0 it.number = some m ∧
      (m : Int) < (soldToday c2Store 0 0 it.number 0 : Int) + it.pieces?.getD 0 :=
  c2_accumulated_limit_iff activeCat c2Store 0 0 0 0 c2Items ⟨0, 0, 86340, true⟩
    rfl (by decide) (by decide)

/-! Persistence effects per outcome. -/

/-- A rejection (field validation or `validate`) happens before any write:
the store carried by a `rejected` outcome is the input store. -/
theorem submitTicket_rejected_eq (cat : Catalog) (s : Store) (req : Request)
    (requester now today : Nat) (s' : Store) (e : AdmissionError)
    (h : submitTicket cat s req requester now today = .rejected s' e) : s' = s := by
  rw [submitTicket] at h
  cases hfv : fieldValidItems req.items with
  | false =>
    rw [hfv] at h
    simp only [Bool.not_false, if_true] at h
    injection h with h1 h2
    exact h1.symm
  | true =>
    rw [hfv] at h
    simp only [Bool.not_true, Bool.false_eq_true, if_false] at h
    cases hv : validateTicket cat s now today req.zone req.draw_type req.items with
    | some e2 =>
      rw [hv] at h
      injection h with h1 h2
      exact h1.symm
    | none =>
      rw [hv] at h
      cases hc : createTicket s (validatedData req) requester today with
      | ok s2 tid2 => rw [hc] at h; exact SubmitResult.noConfusion h
      | integrityError s2 => rw [hc] at h; exact SubmitResult.noConfusion h

/-- C3 (amended). A rejected submission leaves the ledger unchanged, and a
successful submission appends exactly one `Ticket` row and one `TicketItem`
row per submitted item; the creation sequence is however not atomic, so a
storage failure mid-create (outcome `storageError`) can leave a partial
ticket behind, as the separate counterexample shows. -/
theorem c3_rejected_unchanged_created_counts (cat : Catalog) (s : Store)
    (req : Request) (requester now today : Nat) :
    match submitTicket cat s req requester now today with
    | .rejected s' _ => s' = s
    | .created s' _ =>
        s'.tickets.length = s.tickets.length + 1 ∧
        s'.items = s.items ++ req.items.map
          (fun it => ⟨s.next_id, it.number, storedPieces it⟩)
    | .storageError _ => True := by
  cases hres : submitTicket cat s req requester now today with
  | rejected s' e =>
    exact submitTicket_rejected_eq cat s req requester now today s' e hres
  | created s' tid =>
    have hc := submitTicket_created_eq cat s req requester now today s' tid hres
    obtain ⟨-, hs⟩ := createTicket_ok_eq s (validatedData req) requester today s' tid hc
    rw [hs]
    refine ⟨?_, rfl⟩
    simp [setTotal]
  | storageError s' => trivial

/-! Lookup of the freshly created ticket row. -/

/-- Unfolding equation of `setTotal` on a cons cell. -/
theorem setTotal_cons (t : Ticket) (l : List Ticket) (tid total : Nat) :
    setTotal (t :: l) tid total =
      (if t.id == tid then { t with total_pieces := total } else t) :: setTotal l tid total :=
  rfl

/-- Finding the fresh ticket after the total update: every pre-existing row
has a different id, so the lookup lands on the appended row with the stored
total. -/
theorem find_setTotal_fresh (tickets : List Ticket) (t0 : Ticket) (tid total : Nat)
    (hfresh : ∀ t ∈ tickets, t.id ≠ tid) (h0 : t0.id = tid) :
    (setTotal (tickets ++ [t0]) tid total).find? (fun t => t.id == tid) =
      some { t0 with total_pieces := total } := by
  induction tickets with
  | nil =>
    rw [List.nil_append, setTotal_cons, if_pos (by simp [h0])]
    exact List.find?_cons_of_pos _ (by simp [h0])
  | cons t ts ih =>
    have hne : t.id ≠ tid := hfresh t (List.mem_cons_self t ts)
    have hrest := ih (fun x hx => hfresh x (List.mem_cons_of_mem t hx))
    rw [List.cons_append, setTotal_cons, if_neg (by simp [hne])]
    rw [List.find?_cons_of_neg _ (by simp [hne])]
    exact hrest

/-- Pre-existing item rows never reference the fresh ticket id. -/
theorem filter_fresh_nil (items : List TicketItem) (tid : Nat)
    (h : ∀ it ∈ items, it.ticket ≠ tid) :
    items.filter (fun it => it.ticket == tid) = [] := by
  induction items with
  | nil => rfl
  | cons it rest ih =>
    rw [List.filter_cons_of_neg (by simp [h it (List.mem_cons_self it rest)])]
    exact ih (fun x hx => h x (List.mem_cons_of_mem it hx))

/-- Every row inserted for the fresh ticket id survives the filter. -/
theorem filter_mapped_self (l : List ItemPayload) (tid : Nat) :
    (l.map (fun it => (⟨tid, it.number, storedPieces it⟩ : TicketItem))).filter
      (fun it => it.ticket == tid) =
    l.map (fun it => (⟨tid, it.number, storedPieces it⟩ : TicketItem)) := by
  induction l with
  | nil => rfl
  | cons x rest ih =>
    simp only [List.map_cons]
    rw [List.filter_cons_of_pos (by simp)]
    rw [ih]

/-- C9. From a well-formed ledger (pre-existing ticket ids below the fresh
id, no item row pointing at the fresh id), a successful submission stores on
the created ticket a `total_pieces` equal to the sum of the `pieces` of its
`TicketItem` rows. -/
theorem c9_total_pieces (cat : Catalog) (s : Store) (req : Request)
    (requester now today : Nat) (s' : Store) (tid : Nat)
    (hta : ∀ t ∈ s.tickets, t.id < s.next_id)
    (hia : ∀ it ∈ s.items, it.ticket ≠ s.next_id)
    (h : submitTicket cat s req requester now today = .created s' tid) :
    totalOf s' tid = some (itemsSum s' tid) := by
  have hc := submitTicket_created_eq cat s req requester now today s' tid h
  obtain ⟨htid, hs⟩ := createTicket_ok_eq s (validatedData req) requester today s' tid hc
  subst htid
  rw [hs]
  unfold totalOf itemsSum
  rw [find_setTotal_fresh s.tickets (newTicket s (validatedData req) requester today)
    s.next_id _ (fun t ht => Nat.ne_of_lt (hta t ht)) rfl]
  rw [List.filter_append, filter_fresh_nil s.items s.next_id hia, filter_mapped_self]
  simp [List.map_map, Function.comp_def]

/-- C10. The created ticket records the authenticated requester as its user,
and the outcome of a submission is unchanged when the payload additionally
carries `user`, `created_at` or `total_pieces` entries, which are read-only
for the serializer. -/
theorem c10_seller_is_requester (cat : Catalog) (s : Store) (req : Request)
    (requester now today : Nat) (u c tp : Option Nat) (s' : Store) (tid : Nat)
    (hta : ∀ t ∈ s.tickets, t.id < s.next_id)
    (h : submitTicket cat s req requester now today = .created s' tid) :
    submitTicket cat s
        { req with user_payload := u, created_at_payload := c, total_pieces_payload := tp }
        requester now today = .created s' tid ∧
    userOf s' tid = some requester := by
  constructor
  · exact h
  · have hc := submitTicket_created_eq cat s req requester now today s' tid h
    obtain ⟨htid, hs⟩ := createTicket_ok_eq s (validatedData req) requester today s' tid hc
    subst htid
    rw [hs]
    unfold userOf
    rw [find_setTotal_fresh s.tickets (newTicket s (validatedData req) requester today)
      s.next_id _ (fun t ht => Nat.ne_of_lt (hta t ht)) rfl]
    rfl

/-- Ledger state after the successful submission of `oneItemReq` from the
empty store. -/
def c9Store : Store := ⟨[⟨0, 0, 0, 1, 0, 3⟩], [⟨0, "12", 3⟩], 1⟩

/-- Witness for C9 on a concrete successful submission. -/
theorem c9_total_witness : totalOf c9Store 0 = some (itemsSum c9Store 0) :=
  c9_total_pieces activeCat store0 oneItemReq 1 0 0 c9Store 0
    (by intro t ht; exact absurd ht (by simp [store0]))
    (by intro it hit; exact absurd hit (by simp [store0])) rfl

/-- Witness for C10 on a concrete successful submission with read-only
payload entries supplied. -/
theorem c10_requester_witness :
    submitTicket activeCat store0
        { oneItemReq with
            user_payload := some 9
            created_at_payload := some 7
            total_pieces_payload := some 99 } 1 0 0 = .created c9Store 0 ∧
    userOf c9Store 0 = some 1 :=
  c10_seller_is_requester activeCat store0 oneItemReq 1 0 0 (some 9) (some 7) (some 99)
    c9Store 0 (by intro t ht; exact absurd ht (by simp [store0])) rfl

end EmisionTickets
